import Mathlib

/-!
Shallow embedding of `bigip/resource_bigip_ltm_monitor.go` from the
terraform-provider-bigip repository, together with proofs of the specified
properties of its lifecycle operations and helper functions.

Go strings are modelled as `List Char`; a Go `error` is `Option Str`
(`none` = nil error, `some msg` = non-nil error whose `%v` rendering is
`msg`).  The remote API client (`*bigip.BigIP`) is modelled as an oracle
structure giving the outcome of each remote call, and each lifecycle
operation additionally returns the trace of remote calls it issued, so
that temporal and frame properties can be stated.
-/

namespace BigipMonitor

/-- Go strings, modelled as lists of characters. -/
abbrev Str := List Char

/-! ## Pure string helpers -/

/-- Embeds `monitorParent` (lines 266-268): Go
`strings.TrimPrefix(s, "/Common/")`, i.e. if `s` has the leading text
`/Common/` then drop it, otherwise return `s` unchanged. -/
def monitorParent (s : Str) : Str :=
  if "/Common/".data.isPrefixOf s then s.drop "/Common/".data.length else s

/-- The error message produced by `validateParent` (line 263). -/
def parentErrMsg : Str :=
  "parent must be one of /Common/http, /Common/https, /Common/icmp, /Common/gateway-icmp, /Common/tcp-half-open,  or /Common/tcp".data

/-- The six accepted parent monitor names tested on line 259. -/
def validParents : List Str :=
  ["/Common/http".data, "/Common/https".data, "/Common/icmp".data,
   "/Common/gateway-icmp".data, "/Common/tcp".data, "/Common/tcp-half-open".data]

/-- Embeds `validateParent` (lines 257-264): returns the pair
(warnings, errors); nil slices are modelled as `[]`. -/
def validateParent (p : Str) : List Str × List Str :=
  if p = "/Common/http".data ∨ p = "/Common/https".data ∨ p = "/Common/icmp".data
      ∨ p = "/Common/gateway-icmp".data ∨ p = "/Common/tcp".data
      ∨ p = "/Common/tcp-half-open".data then
    ([], [])
  else
    ([], [parentErrMsg])

/-- Embeds the `StateFunc` of the `send` schema field (lines 63-65):
`strings.Replace(s, "\r\n", "\\r\\n", -1)`, specialised to its constant
arguments: a left-to-right scan replacing each non-overlapping occurrence
of CR LF by the four characters `\`, `r`, `\`, `n`. -/
def sendStateFunc : Str → Str
  | [] => []
  | [c] => [c]
  | c1 :: c2 :: rest =>
    if c1 = '\r' ∧ c2 = '\n' then
      '\\' :: 'r' :: '\\' :: 'n' :: sendStateFunc rest
    else
      c1 :: sendStateFunc (c2 :: rest)

/-! ## Data model -/

/-- Embeds the fields of the `bigip.Monitor` record that this resource file
reads or writes (Go zero values: `[]` for strings, `0` for ints). -/
structure Monitor where
  fullPath : Str := []
  parentMonitor : Str := []
  defaultsFrom : Str := []
  interval : Int := 0
  timeout : Int := 0
  sendString : Str := []
  receiveString : Str := []
  receiveDisable : Str := []
  reverse : Str := []
  transparent : Str := []
  ipDscp : Int := 0
  timeUntilUp : Int := 0
  manualResume : Str := []
  destination : Str := []
deriving DecidableEq, Repr

/-- Embeds the `*schema.ResourceData` view used by this resource: the
resource Id together with the configuration fields declared in the schema
(lines 23-116).  `d.Get`/`d.Set`/`d.SetId`/`d.Id` become field reads and
functional record updates. -/
structure ResourceData where
  id : Str
  name : Str
  parent : Str
  defaults_from : Str
  interval : Int
  timeout : Int
  send : Str
  receive : Str
  receive_disable : Str
  reverse : Str
  transparent : Str
  ip_dscp : Int
  time_until_up : Int
  manual_resume : Str
  destination : Str
deriving DecidableEq, Repr

/-- One remote API call issued through the `bigip.BigIP` client, with the
arguments it was given. -/
inductive ApiCall where
  | createMonitor (name parent defaultsFrom : Str) (interval timeout : Int)
      (send receive receiveDisable : Str)
  | monitors
  | modifyMonitor (name parent : Str) (m : Monitor)
  | deleteMonitor (name parent : Str)
deriving DecidableEq, Repr

/-- The four kinds of remote monitor operations. -/
inductive ApiCallKind where
  | create | list | modify | delete
deriving DecidableEq, Repr

/-- The kind of a remote call. -/
def ApiCall.kind : ApiCall → ApiCallKind
  | .createMonitor .. => .create
  | .monitors => .list
  | .modifyMonitor .. => .modify
  | .deleteMonitor .. => .delete

/-- Oracle model of the remote client `*bigip.BigIP`: the outcome each
remote call would return.  `CreateMonitor`, `ModifyMonitor` and
`DeleteMonitor` return a Go error (`Option Str`); `Monitors` returns either
an error, or a possibly-nil slice of monitors (`Option (List Monitor)`,
`none` modelling a nil slice). -/
structure Client where
  createMonitor : Str → Str → Str → Int → Int → Str → Str → Str → Option Str
  monitors : Except Str (Option (List Monitor))
  modifyMonitor : Str → Str → Monitor → Option Str
  deleteMonitor : Str → Str → Option Str

/-! ## Error messages (`fmt.Errorf` renderings) -/

/-- `fmt.Errorf("Error creating Monitor %s: %v", name, err)` (line 138). -/
def errCreating (name err : Str) : Str :=
  "Error creating Monitor ".data ++ name ++ ": ".data ++ err

/-- `fmt.Errorf("Error updating Monitor %s::%s: %v", name, parent, err)` (line 235). -/
def errUpdating (name parent err : Str) : Str :=
  "Error updating Monitor ".data ++ name ++ "::".data ++ parent ++ ": ".data ++ err

/-- `fmt.Errorf("Error deleting Monitor %s::%s: %v", name, parent, err)` (line 250). -/
def errDeleting (name parent err : Str) : Str :=
  "Error deleting Monitor ".data ++ name ++ "::".data ++ parent ++ ": ".data ++ err

/-- `fmt.Errorf("Unable to retrieve Monitors: %v", err)` (lines 155 and 197). -/
def errRetrieve (err : Str) : Str :=
  "Unable to retrieve Monitors: ".data ++ err

/-! ## Lifecycle operations

Each operation takes the client oracle and the current resource data and
returns the Go error, the resulting resource data, and the trace of remote
calls issued, in order. -/

/-- The fourteen `d.Set` calls in the body of the read loop (lines 165-178);
the resource Id is not touched. -/
def setFromMonitor (d : ResourceData) (m : Monitor) : ResourceData :=
  { d with
    name := m.fullPath
    parent := m.parentMonitor
    defaults_from := m.defaultsFrom
    interval := m.interval
    timeout := m.timeout
    send := m.sendString
    receive := m.receiveString
    receive_disable := m.receiveDisable
    reverse := m.reverse
    transparent := m.transparent
    ip_dscp := m.ipDscp
    time_until_up := m.timeUntilUp
    manual_resume := m.manualResume
    destination := m.destination }

/-- The `for _, m := range monitors` loop of `Read` (lines 163-185): the
first monitor whose `FullPath` equals `name` populates the state; if none
matches, the Id is cleared. -/
def readLoop (name : Str) (d : ResourceData) : List Monitor → ResourceData
  | [] => { d with id := [] }
  | m :: rest => if m.fullPath = name then setFromMonitor d m else readLoop name d rest

/-- Embeds `resourceBigipLtmMonitorRead` (lines 146-186). -/
def resourceBigipLtmMonitorRead (client : Client) (d : ResourceData) :
    Option Str × ResourceData × List ApiCall :=
  match client.monitors with
  | .error err => (some (errRetrieve err), d, [ApiCall.monitors])
  | .ok none => (none, { d with id := [] }, [ApiCall.monitors])
  | .ok (some ms) => (none, readLoop d.id d ms, [ApiCall.monitors])

/-- Embeds `resourceBigipLtmMonitorExists` (lines 188-210): returns the
Go pair (bool, error) plus the call trace. -/
def resourceBigipLtmMonitorExists (client : Client) (d : ResourceData) :
    Bool × Option Str × List ApiCall :=
  match client.monitors with
  | .error err => (false, some (errRetrieve err), [ApiCall.monitors])
  | .ok none => (false, none, [ApiCall.monitors])
  | .ok (some ms) => (ms.any (fun m => m.fullPath == d.id), none, [ApiCall.monitors])

/-- The `bigip.Monitor` literal constructed by `Update` (lines 219-231):
the eleven listed configuration fields, all other fields left at their
Go zero values. -/
def monitorFromData (d : ResourceData) : Monitor :=
  { interval := d.interval
    timeout := d.timeout
    sendString := d.send
    receiveString := d.receive
    receiveDisable := d.receive_disable
    reverse := d.reverse
    transparent := d.transparent
    ipDscp := d.ip_dscp
    timeUntilUp := d.time_until_up
    manualResume := d.manual_resume
    destination := d.destination }

/-- Embeds `resourceBigipLtmMonitorUpdate` (lines 212-239). -/
def resourceBigipLtmMonitorUpdate (client : Client) (d : ResourceData) :
    Option Str × ResourceData × List ApiCall :=
  let name := d.id
  let parent := monitorParent d.parent
  let m := monitorFromData d
  match client.modifyMonitor name parent m with
  | some err => (some (errUpdating name parent err), d, [ApiCall.modifyMonitor name parent m])
  | none =>
    let r := resourceBigipLtmMonitorRead client d
    (r.1, r.2.1, ApiCall.modifyMonitor name parent m :: r.2.2)

/-- Embeds `resourceBigipLtmMonitorCreate` (lines 120-144). -/
def resourceBigipLtmMonitorCreate (client : Client) (d : ResourceData) :
    Option Str × ResourceData × List ApiCall :=
  let name := d.name
  let parent := monitorParent d.parent
  let call := ApiCall.createMonitor name parent d.defaults_from d.interval d.timeout
      d.send d.receive d.receive_disable
  match client.createMonitor name parent d.defaults_from d.interval d.timeout
      d.send d.receive d.receive_disable with
  | some err => (some (errCreating name err), d, [call])
  | none =>
    let r := resourceBigipLtmMonitorUpdate client { d with id := name }
    (r.1, r.2.1, call :: r.2.2)

/-- Embeds `resourceBigipLtmMonitorDelete` (lines 241-255). -/
def resourceBigipLtmMonitorDelete (client : Client) (d : ResourceData) :
    Option Str × ResourceData × List ApiCall :=
  let name := d.id
  let parent := monitorParent d.parent
  match client.deleteMonitor name parent with
  | some err => (some (errDeleting name parent err), d, [ApiCall.deleteMonitor name parent])
  | none => (none, { d with id := [] }, [ApiCall.deleteMonitor name parent])

/-- The `CreateMonitor` call issued by `Create` (lines 127-136), with the
arguments read from `d`. -/
def createCallOf (d : ResourceData) : ApiCall :=
  .createMonitor d.name (monitorParent d.parent) d.defaults_from d.interval d.timeout
    d.send d.receive d.receive_disable

/-- The `ModifyMonitor` call issued by `Update` (line 233). -/
def modifyCallOf (d : ResourceData) : ApiCall :=
  .modifyMonitor d.id (monitorParent d.parent) (monitorFromData d)

/-- The `DeleteMonitor` call issued by `Delete` (line 248). -/
def deleteCallOf (d : ResourceData) : ApiCall :=
  .deleteMonitor d.id (monitorParent d.parent)

/-! ## Concrete instances used by witnesses -/

/-- A concrete client-error message. -/
def boom : Str := "boom".data

/-- A client whose every call fails with `boom`. -/
def allFailClient : Client where
  createMonitor := fun _ _ _ _ _ _ _ _ => some boom
  monitors := .error boom
  modifyMonitor := fun _ _ _ => some boom
  deleteMonitor := fun _ _ => some boom

/-- A client whose `CreateMonitor` succeeds but whose `ModifyMonitor`
and `Monitors` calls fail. -/
def modifyFailClient : Client where
  createMonitor := fun _ _ _ _ _ _ _ _ => none
  monitors := .error boom
  modifyMonitor := fun _ _ _ => some boom
  deleteMonitor := fun _ _ => none

/-- A client whose calls succeed except the `Monitors` listing. -/
def listFailClient : Client where
  createMonitor := fun _ _ _ _ _ _ _ _ => none
  monitors := .error boom
  modifyMonitor := fun _ _ _ => none
  deleteMonitor := fun _ _ => none

/-- A client whose every call succeeds, with `Monitors` returning `ms`. -/
def allOkClient (ms : Option (List Monitor)) : Client where
  createMonitor := fun _ _ _ _ _ _ _ _ => none
  monitors := .ok ms
  modifyMonitor := fun _ _ _ => none
  deleteMonitor := fun _ _ => none

/-- A concrete resource-data value. -/
def d0 : ResourceData where
  id := "m1".data
  name := "m1".data
  parent := "/Common/http".data
  defaults_from := []
  interval := 3
  timeout := 16
  send := []
  receive := []
  receive_disable := []
  reverse := []
  transparent := "disabled".data
  ip_dscp := 0
  time_until_up := 0
  manual_resume := "disabled".data
  destination := "*:*".data

/-- A concrete monitor whose `FullPath` differs from `d0`'s Id. -/
def otherMonitor : Monitor where
  fullPath := "other".data

/-! ## Theorems -/

/-- Membership in the accepted list is the disjunction tested on line 259. -/
theorem mem_validParents_iff (p : Str) :
    p ∈ validParents ↔
      p = "/Common/http".data ∨ p = "/Common/https".data ∨ p = "/Common/icmp".data
        ∨ p = "/Common/gateway-icmp".data ∨ p = "/Common/tcp".data
        ∨ p = "/Common/tcp-half-open".data := by
  simp [validParents]

/-- C1: `validateParent p` returns no warnings and no errors exactly when `p`
is one of the six accepted parent names, and returns no warnings and exactly
one error for every other string. -/
theorem validateParent_ok_iff_accepted (p : Str) :
    (validateParent p).1 = [] ∧
    ((validateParent p).2 = [] ↔ p ∈ validParents) ∧
    (validateParent p).2.length = (if p ∈ validParents then 0 else 1) := by
  by_cases h : p ∈ validParents
  · have h' := (mem_validParents_iff p).mp h
    simp [validateParent, h', h]
  · have h' := (mem_validParents_iff p).not.mp h
    rw [not_or, not_or, not_or, not_or, not_or] at h'
    obtain ⟨h1, h2, h3, h4, h5, h6⟩ := h'
    simp [validateParent, h1, h2, h3, h4, h5, h6, h]

/-- C7: `monitorParent` removes exactly one leading `/Common/` from a string
that starts with it, and leaves any other string unchanged. -/
theorem monitorParent_strips_one_leading_common (s : Str) :
    ("/Common/".data <+: s → "/Common/".data ++ monitorParent s = s) ∧
    (¬ "/Common/".data <+: s → monitorParent s = s) := by
  constructor
  · intro h
    obtain ⟨t, rfl⟩ := h
    rw [monitorParent, if_pos (List.isPrefixOf_iff_prefix.mpr ⟨t, rfl⟩), List.drop_left]
  · intro h
    rw [monitorParent, if_neg (fun hb => h (List.isPrefixOf_iff_prefix.mp hb))]

/-- Witness for C7 at the concrete inputs `/Common/http` and `foo`. -/
theorem monitorParent_strips_one_leading_common_witness :
    "/Common/".data ++ monitorParent "/Common/http".data = "/Common/http".data ∧
    monitorParent "foo".data = "foo".data :=
  ⟨(monitorParent_strips_one_leading_common "/Common/http".data).1 (by decide),
   (monitorParent_strips_one_leading_common "foo".data).2 (by decide)⟩

/-- On a string with no CR LF occurrence, the `send` state function is the
identity. -/
theorem sendStateFunc_eq_of_no_crlf :
    ∀ s : Str, ¬ (['\r', '\n'] <:+: s) → sendStateFunc s = s
  | [], _ => rfl
  | [_], _ => rfl
  | c1 :: c2 :: rest, h => by
    have hne : ¬ (c1 = '\r' ∧ c2 = '\n') := by
      rintro ⟨rfl, rfl⟩
      exact h ⟨[], rest, rfl⟩
    rw [sendStateFunc, if_neg hne]
    have htail : ¬ (['\r', '\n'] <:+: c2 :: rest) := fun hi => h (List.infix_cons hi)
    rw [sendStateFunc_eq_of_no_crlf (c2 :: rest) htail]

/-- The `send` state function rewrites each CR LF occurrence to the literal
four characters `\r\n`, distributing over the occurrence. -/
theorem sendStateFunc_append_crlf :
    ∀ a b : Str,
      sendStateFunc (a ++ '\r' :: '\n' :: b) =
        sendStateFunc a ++ '\\' :: 'r' :: '\\' :: 'n' :: sendStateFunc b
  | [], b => by
    simp [sendStateFunc]
  | [c], b => by
    have hrn : ('\r' : Char) ≠ '\n' := by decide
    simp [sendStateFunc, hrn]
  | c1 :: c2 :: a, b => by
    by_cases h : c1 = '\r' ∧ c2 = '\n'
    · obtain ⟨rfl, rfl⟩ := h
      have IH := sendStateFunc_append_crlf a b
      simp [sendStateFunc, IH]
    · have IH := sendStateFunc_append_crlf (c2 :: a) b
      rw [List.cons_append] at IH
      simp [sendStateFunc, h, IH]

/-- C10: the `send` schema field's StateFunc replaces every occurrence of
CR LF by the four-character text `\r\n` and leaves all other characters
unchanged: it is the identity on CRLF-free strings and rewrites each CRLF
occurrence to `\`, `r`, `\`, `n`. -/
theorem send_stateFunc_replaces_crlf :
    (∀ s : Str, ¬ (['\r', '\n'] <:+: s) → sendStateFunc s = s) ∧
    (∀ a b : Str,
      sendStateFunc (a ++ '\r' :: '\n' :: b) =
        sendStateFunc a ++ '\\' :: 'r' :: '\\' :: 'n' :: sendStateFunc b) :=
  ⟨sendStateFunc_eq_of_no_crlf, sendStateFunc_append_crlf⟩

/-- Witness for C10 at concrete inputs. -/
theorem send_stateFunc_replaces_crlf_witness :
    sendStateFunc "GET /".data = "GET /".data ∧
    sendStateFunc ("GET /".data ++ '\r' :: '\n' :: "Host: a".data) =
      sendStateFunc "GET /".data ++ '\\' :: 'r' :: '\\' :: 'n' ::
        sendStateFunc "Host: a".data :=
  ⟨send_stateFunc_replaces_crlf.1 "GET /".data (by decide),
   send_stateFunc_replaces_crlf.2 "GET /".data "Host: a".data⟩

/-! ### Trace-shape helper lemmas -/

/-- `Read` issues exactly one `Monitors` listing call. -/
theorem read_trace_eq (client : Client) (d : ResourceData) :
    (resourceBigipLtmMonitorRead client d).2.2 = [ApiCall.monitors] := by
  cases hm : client.monitors with
  | error e => simp [resourceBigipLtmMonitorRead, hm]
  | ok o => cases o <;> simp [resourceBigipLtmMonitorRead, hm]

/-- `Exists` issues exactly one `Monitors` listing call. -/
theorem exists_trace_eq (client : Client) (d : ResourceData) :
    (resourceBigipLtmMonitorExists client d).2.2 = [ApiCall.monitors] := by
  cases hm : client.monitors with
  | error e => simp [resourceBigipLtmMonitorExists, hm]
  | ok o => cases o <;> simp [resourceBigipLtmMonitorExists, hm]

/-- `Delete` issues exactly one `DeleteMonitor` call. -/
theorem delete_trace_eq (client : Client) (d : ResourceData) :
    (resourceBigipLtmMonitorDelete client d).2.2 = [deleteCallOf d] := by
  cases hm : client.deleteMonitor d.id (monitorParent d.parent) <;>
    simp [resourceBigipLtmMonitorDelete, deleteCallOf, hm]

/-- `Update` issues its `ModifyMonitor` call and then at most one
`Monitors` call. -/
theorem update_trace_cases (client : Client) (d : ResourceData) :
    (resourceBigipLtmMonitorUpdate client d).2.2 = [modifyCallOf d] ∨
    (resourceBigipLtmMonitorUpdate client d).2.2 = [modifyCallOf d, ApiCall.monitors] := by
  cases hm : client.modifyMonitor d.id (monitorParent d.parent) (monitorFromData d) with
  | some e => exact Or.inl (by simp [resourceBigipLtmMonitorUpdate, modifyCallOf, hm])
  | none =>
    exact Or.inr (by simp [resourceBigipLtmMonitorUpdate, modifyCallOf, hm, read_trace_eq])

/-- `Create` issues its `CreateMonitor` call, then at most the
`ModifyMonitor` and `Monitors` calls of the chained `Update`. -/
theorem create_trace_cases (client : Client) (d : ResourceData) :
    (resourceBigipLtmMonitorCreate client d).2.2 = [createCallOf d] ∨
    (resourceBigipLtmMonitorCreate client d).2.2 =
      [createCallOf d, modifyCallOf { d with id := d.name }] ∨
    (resourceBigipLtmMonitorCreate client d).2.2 =
      [createCallOf d, modifyCallOf { d with id := d.name }, ApiCall.monitors] := by
  cases hc : client.createMonitor d.name (monitorParent d.parent) d.defaults_from
      d.interval d.timeout d.send d.receive d.receive_disable with
  | some e => exact Or.inl (by simp [resourceBigipLtmMonitorCreate, createCallOf, hc])
  | none =>
    rcases update_trace_cases client { d with id := d.name } with hu | hu
    · refine Or.inr (Or.inl ?_)
      simp only [resourceBigipLtmMonitorCreate, createCallOf, hc]
      simp [hu]
    · refine Or.inr (Or.inr ?_)
      simp only [resourceBigipLtmMonitorCreate, createCallOf, hc]
      simp [hu]

/-! ### Read-loop helper lemmas -/

/-- When no listed monitor matches, the read loop only clears the Id. -/
theorem readLoop_eq_of_no_match (name : Str) (d : ResourceData) :
    ∀ ms : List Monitor, (∀ m ∈ ms, m.fullPath ≠ name) →
      readLoop name d ms = { d with id := [] }
  | [], _ => rfl
  | m :: rest, h => by
    rw [readLoop, if_neg (h m (List.mem_cons_self m rest)),
      readLoop_eq_of_no_match name d rest (fun m' hm' => h m' (List.mem_cons_of_mem m hm'))]

/-- The read loop either only clears the Id, or copies the fields of some
listed monitor whose `FullPath` matches. -/
theorem readLoop_cases (name : Str) (d : ResourceData) :
    ∀ ms : List Monitor,
      readLoop name d ms = { d with id := [] } ∨
      ∃ m ∈ ms, m.fullPath = name ∧ readLoop name d ms = setFromMonitor d m
  | [] => Or.inl rfl
  | m :: rest => by
    by_cases hm : m.fullPath = name
    · exact Or.inr ⟨m, List.mem_cons_self m rest, hm, by rw [readLoop, if_pos hm]⟩
    · rcases readLoop_cases name d rest with h | ⟨m', hm', hp, hr⟩
      · exact Or.inl (by rw [readLoop, if_neg hm, h])
      · exact Or.inr ⟨m', List.mem_cons_of_mem m hm', hp, by rw [readLoop, if_neg hm, hr]⟩

/-! ### The claims -/

/-- C2: whenever the client call underlying Create, Update or Delete fails,
the operation returns a non-nil error whose message contains the monitor
name and the client error text; Read and Exists wrap a failed `Monitors`
listing similarly. -/
theorem client_errors_are_wrapped (client : Client) (d : ResourceData) (e : Str) :
    (client.createMonitor d.name (monitorParent d.parent) d.defaults_from d.interval
        d.timeout d.send d.receive d.receive_disable = some e →
      ∃ msg, (resourceBigipLtmMonitorCreate client d).1 = some msg ∧
        d.name <:+: msg ∧ e <:+: msg) ∧
    (client.modifyMonitor d.id (monitorParent d.parent) (monitorFromData d) = some e →
      ∃ msg, (resourceBigipLtmMonitorUpdate client d).1 = some msg ∧
        d.id <:+: msg ∧ e <:+: msg) ∧
    (client.deleteMonitor d.id (monitorParent d.parent) = some e →
      ∃ msg, (resourceBigipLtmMonitorDelete client d).1 = some msg ∧
        d.id <:+: msg ∧ e <:+: msg) ∧
    (client.monitors = .error e →
      ∃ msg, (resourceBigipLtmMonitorRead client d).1 = some msg ∧ e <:+: msg) ∧
    (client.monitors = .error e →
      ∃ msg, (resourceBigipLtmMonitorExists client d).2.1 = some msg ∧ e <:+: msg) := by
  refine ⟨fun h => ⟨errCreating d.name e, ?_, ?_, ?_⟩,
    fun h => ⟨errUpdating d.id (monitorParent d.parent) e, ?_, ?_, ?_⟩,
    fun h => ⟨errDeleting d.id (monitorParent d.parent) e, ?_, ?_, ?_⟩,
    fun h => ⟨errRetrieve e, ?_, ?_⟩, fun h => ⟨errRetrieve e, ?_, ?_⟩⟩
  · simp [resourceBigipLtmMonitorCreate, h]
  · exact ⟨"Error creating Monitor ".data, ": ".data ++ e, by simp [errCreating]⟩
  · exact ⟨"Error creating Monitor ".data ++ d.name ++ ": ".data, [], by simp [errCreating]⟩
  · simp [resourceBigipLtmMonitorUpdate, h]
  · exact ⟨"Error updating Monitor ".data,
      "::".data ++ monitorParent d.parent ++ ": ".data ++ e, by simp [errUpdating]⟩
  · exact ⟨"Error updating Monitor ".data ++ d.id ++ "::".data ++ monitorParent d.parent
      ++ ": ".data, [], by simp [errUpdating]⟩
  · simp [resourceBigipLtmMonitorDelete, h]
  · exact ⟨"Error deleting Monitor ".data,
      "::".data ++ monitorParent d.parent ++ ": ".data ++ e, by simp [errDeleting]⟩
  · exact ⟨"Error deleting Monitor ".data ++ d.id ++ "::".data ++ monitorParent d.parent
      ++ ": ".data, [], by simp [errDeleting]⟩
  · simp [resourceBigipLtmMonitorRead, h]
  · exact ⟨"Unable to retrieve Monitors: ".data, [], by simp [errRetrieve]⟩
  · simp [resourceBigipLtmMonitorExists, h]
  · exact ⟨"Unable to retrieve Monitors: ".data, [], by simp [errRetrieve]⟩

/-- Witness for C2: with a client whose every call fails with `boom`, each
operation's error message contains the monitor name (where claimed) and
the client error text. -/
theorem client_errors_are_wrapped_witness :
    (∃ msg, (resourceBigipLtmMonitorCreate allFailClient d0).1 = some msg ∧
      d0.name <:+: msg ∧ boom <:+: msg) ∧
    (∃ msg, (resourceBigipLtmMonitorUpdate allFailClient d0).1 = some msg ∧
      d0.id <:+: msg ∧ boom <:+: msg) ∧
    (∃ msg, (resourceBigipLtmMonitorDelete allFailClient d0).1 = some msg ∧
      d0.id <:+: msg ∧ boom <:+: msg) ∧
    (∃ msg, (resourceBigipLtmMonitorRead allFailClient d0).1 = some msg ∧ boom <:+: msg) ∧
    (∃ msg, (resourceBigipLtmMonitorExists allFailClient d0).2.1 = some msg ∧ boom <:+: msg) :=
  ⟨(client_errors_are_wrapped allFailClient d0 boom).1 rfl,
   (client_errors_are_wrapped allFailClient d0 boom).2.1 rfl,
   (client_errors_are_wrapped allFailClient d0 boom).2.2.1 rfl,
   (client_errors_are_wrapped allFailClient d0 boom).2.2.2.1 rfl,
   (client_errors_are_wrapped allFailClient d0 boom).2.2.2.2 rfl⟩

/-- C3: whenever a remote call fails, the operation returns at once: the
trace ends at the failed call (which is issued exactly once) and no further
remote call happens; in particular a failed `CreateMonitor` leaves the
state (hence the resource Id) untouched and triggers neither
`ModifyMonitor` nor the `Monitors` listing.  All error executions of the
five operations are enumerated. -/
theorem failed_call_stops_operation (client : Client) (d : ResourceData) (e : Str) :
    (client.createMonitor d.name (monitorParent d.parent) d.defaults_from d.interval
        d.timeout d.send d.receive d.receive_disable = some e →
      resourceBigipLtmMonitorCreate client d =
        (some (errCreating d.name e), d, [createCallOf d])) ∧
    (client.modifyMonitor d.id (monitorParent d.parent) (monitorFromData d) = some e →
      resourceBigipLtmMonitorUpdate client d =
        (some (errUpdating d.id (monitorParent d.parent) e), d, [modifyCallOf d])) ∧
    (client.monitors = .error e →
      resourceBigipLtmMonitorRead client d = (some (errRetrieve e), d, [ApiCall.monitors])) ∧
    (client.monitors = .error e →
      resourceBigipLtmMonitorExists client d =
        (false, some (errRetrieve e), [ApiCall.monitors])) ∧
    (client.deleteMonitor d.id (monitorParent d.parent) = some e →
      resourceBigipLtmMonitorDelete client d =
        (some (errDeleting d.id (monitorParent d.parent) e), d, [deleteCallOf d])) ∧
    (client.createMonitor d.name (monitorParent d.parent) d.defaults_from d.interval
        d.timeout d.send d.receive d.receive_disable = none →
      client.modifyMonitor d.name (monitorParent d.parent)
          (monitorFromData { d with id := d.name }) = some e →
      resourceBigipLtmMonitorCreate client d =
        (some (errUpdating d.name (monitorParent d.parent) e), { d with id := d.name },
         [createCallOf d, modifyCallOf { d with id := d.name }])) ∧
    (client.createMonitor d.name (monitorParent d.parent) d.defaults_from d.interval
        d.timeout d.send d.receive d.receive_disable = none →
      client.modifyMonitor d.name (monitorParent d.parent)
          (monitorFromData { d with id := d.name }) = none →
      client.monitors = .error e →
      resourceBigipLtmMonitorCreate client d =
        (some (errRetrieve e), { d with id := d.name },
         [createCallOf d, modifyCallOf { d with id := d.name }, ApiCall.monitors])) ∧
    (client.modifyMonitor d.id (monitorParent d.parent) (monitorFromData d) = none →
      client.monitors = .error e →
      resourceBigipLtmMonitorUpdate client d =
        (some (errRetrieve e), d, [modifyCallOf d, ApiCall.monitors])) := by
  refine ⟨fun h => ?_, fun h => ?_, fun h => ?_, fun h => ?_, fun h => ?_,
    fun h1 h2 => ?_, fun h1 h2 h3 => ?_, fun h1 h2 => ?_⟩
  · simp [resourceBigipLtmMonitorCreate, createCallOf, h]
  · simp [resourceBigipLtmMonitorUpdate, modifyCallOf, h]
  · simp [resourceBigipLtmMonitorRead, h]
  · simp [resourceBigipLtmMonitorExists, h]
  · simp [resourceBigipLtmMonitorDelete, deleteCallOf, h]
  · simp [resourceBigipLtmMonitorCreate, resourceBigipLtmMonitorUpdate,
      createCallOf, modifyCallOf, h1, h2]
  · simp [resourceBigipLtmMonitorCreate, resourceBigipLtmMonitorUpdate,
      resourceBigipLtmMonitorRead, createCallOf, modifyCallOf, h1, h2, h3]
  · simp [resourceBigipLtmMonitorUpdate, resourceBigipLtmMonitorRead,
      modifyCallOf, h1, h2]

/-- Witness for C3: the eight error executions at concrete clients. -/
theorem failed_call_stops_operation_witness :
    (resourceBigipLtmMonitorCreate allFailClient d0 =
      (some (errCreating d0.name boom), d0, [createCallOf d0])) ∧
    (resourceBigipLtmMonitorUpdate allFailClient d0 =
      (some (errUpdating d0.id (monitorParent d0.parent) boom), d0, [modifyCallOf d0])) ∧
    (resourceBigipLtmMonitorRead allFailClient d0 =
      (some (errRetrieve boom), d0, [ApiCall.monitors])) ∧
    (resourceBigipLtmMonitorExists allFailClient d0 =
      (false, some (errRetrieve boom), [ApiCall.monitors])) ∧
    (resourceBigipLtmMonitorDelete allFailClient d0 =
      (some (errDeleting d0.id (monitorParent d0.parent) boom), d0, [deleteCallOf d0])) ∧
    (resourceBigipLtmMonitorCreate modifyFailClient d0 =
      (some (errUpdating d0.name (monitorParent d0.parent) boom), { d0 with id := d0.name },
       [createCallOf d0, modifyCallOf { d0 with id := d0.name }])) ∧
    (resourceBigipLtmMonitorCreate listFailClient d0 =
      (some (errRetrieve boom), { d0 with id := d0.name },
       [createCallOf d0, modifyCallOf { d0 with id := d0.name }, ApiCall.monitors])) ∧
    (resourceBigipLtmMonitorUpdate listFailClient d0 =
      (some (errRetrieve boom), d0, [modifyCallOf d0, ApiCall.monitors])) :=
  ⟨(failed_call_stops_operation allFailClient d0 boom).1 rfl,
   (failed_call_stops_operation allFailClient d0 boom).2.1 rfl,
   (failed_call_stops_operation allFailClient d0 boom).2.2.1 rfl,
   (failed_call_stops_operation allFailClient d0 boom).2.2.2.1 rfl,
   (failed_call_stops_operation allFailClient d0 boom).2.2.2.2.1 rfl,
   (failed_call_stops_operation modifyFailClient d0 boom).2.2.2.2.2.1 rfl rfl,
   (failed_call_stops_operation listFailClient d0 boom).2.2.2.2.2.2.1 rfl rfl rfl,
   (failed_call_stops_operation listFailClient d0 boom).2.2.2.2.2.2.2 rfl rfl⟩

/-- C4: `Create` passes the configured name, the prefix-stripped parent and
the six remaining configured values, each unmodified, to `CreateMonitor`;
on success it sets the resource Id to the configured name and then performs
the `Update` operation. -/
theorem create_transcribes_and_chains_update (client : Client) (d : ResourceData) :
    ((resourceBigipLtmMonitorCreate client d).2.2).head? =
      some (ApiCall.createMonitor d.name (monitorParent d.parent) d.defaults_from
        d.interval d.timeout d.send d.receive d.receive_disable) ∧
    (client.createMonitor d.name (monitorParent d.parent) d.defaults_from d.interval
        d.timeout d.send d.receive d.receive_disable = none →
      resourceBigipLtmMonitorCreate client d =
        ((resourceBigipLtmMonitorUpdate client { d with id := d.name }).1,
         (resourceBigipLtmMonitorUpdate client { d with id := d.name }).2.1,
         ApiCall.createMonitor d.name (monitorParent d.parent) d.defaults_from
             d.interval d.timeout d.send d.receive d.receive_disable ::
           (resourceBigipLtmMonitorUpdate client { d with id := d.name }).2.2)) := by
  constructor
  · cases hc : client.createMonitor d.name (monitorParent d.parent) d.defaults_from
        d.interval d.timeout d.send d.receive d.receive_disable <;>
      simp [resourceBigipLtmMonitorCreate, hc]
  · intro h
    simp [resourceBigipLtmMonitorCreate, h]

/-- Witness for C4: a succeeding `CreateMonitor` at a concrete client. -/
theorem create_transcribes_and_chains_update_witness :
    ((resourceBigipLtmMonitorCreate (allOkClient none) d0).2.2).head? =
      some (ApiCall.createMonitor d0.name (monitorParent d0.parent) d0.defaults_from
        d0.interval d0.timeout d0.send d0.receive d0.receive_disable) ∧
    resourceBigipLtmMonitorCreate (allOkClient none) d0 =
      ((resourceBigipLtmMonitorUpdate (allOkClient none) { d0 with id := d0.name }).1,
       (resourceBigipLtmMonitorUpdate (allOkClient none) { d0 with id := d0.name }).2.1,
       ApiCall.createMonitor d0.name (monitorParent d0.parent) d0.defaults_from
           d0.interval d0.timeout d0.send d0.receive d0.receive_disable ::
         (resourceBigipLtmMonitorUpdate (allOkClient none) { d0 with id := d0.name }).2.2) :=
  ⟨(create_transcribes_and_chains_update (allOkClient none) d0).1,
   (create_transcribes_and_chains_update (allOkClient none) d0).2 rfl⟩

/-- C5: `Update` builds the request record from exactly the eleven listed
configuration fields (all other record fields at their zero values), passes
it with the resource Id and the prefix-stripped parent to `ModifyMonitor`,
and on success performs the `Read` operation. -/
theorem update_transcribes_and_chains_read (client : Client) (d : ResourceData) :
    ((resourceBigipLtmMonitorUpdate client d).2.2).head? =
      some (ApiCall.modifyMonitor d.id (monitorParent d.parent)
        { fullPath := [], parentMonitor := [], defaultsFrom := [],
          interval := d.interval, timeout := d.timeout, sendString := d.send,
          receiveString := d.receive, receiveDisable := d.receive_disable,
          reverse := d.reverse, transparent := d.transparent, ipDscp := d.ip_dscp,
          timeUntilUp := d.time_until_up, manualResume := d.manual_resume,
          destination := d.destination }) ∧
    (client.modifyMonitor d.id (monitorParent d.parent) (monitorFromData d) = none →
      resourceBigipLtmMonitorUpdate client d =
        ((resourceBigipLtmMonitorRead client d).1,
         (resourceBigipLtmMonitorRead client d).2.1,
         ApiCall.modifyMonitor d.id (monitorParent d.parent) (monitorFromData d) ::
           (resourceBigipLtmMonitorRead client d).2.2)) := by
  constructor
  · have hrec : monitorFromData d =
        { fullPath := [], parentMonitor := [], defaultsFrom := [],
          interval := d.interval, timeout := d.timeout, sendString := d.send,
          receiveString := d.receive, receiveDisable := d.receive_disable,
          reverse := d.reverse, transparent := d.transparent, ipDscp := d.ip_dscp,
          timeUntilUp := d.time_until_up, manualResume := d.manual_resume,
          destination := d.destination } := rfl
    rw [← hrec]
    cases hm : client.modifyMonitor d.id (monitorParent d.parent) (monitorFromData d) <;>
      simp [resourceBigipLtmMonitorUpdate, hm]
  · intro h
    simp [resourceBigipLtmMonitorUpdate, h]

/-- Witness for C5: a succeeding `ModifyMonitor` at a concrete client. -/
theorem update_transcribes_and_chains_read_witness :
    ((resourceBigipLtmMonitorUpdate (allOkClient none) d0).2.2).head? =
      some (ApiCall.modifyMonitor d0.id (monitorParent d0.parent)
        { fullPath := [], parentMonitor := [], defaultsFrom := [],
          interval := d0.interval, timeout := d0.timeout, sendString := d0.send,
          receiveString := d0.receive, receiveDisable := d0.receive_disable,
          reverse := d0.reverse, transparent := d0.transparent, ipDscp := d0.ip_dscp,
          timeUntilUp := d0.time_until_up, manualResume := d0.manual_resume,
          destination := d0.destination }) ∧
    resourceBigipLtmMonitorUpdate (allOkClient none) d0 =
      ((resourceBigipLtmMonitorRead (allOkClient none) d0).1,
       (resourceBigipLtmMonitorRead (allOkClient none) d0).2.1,
       ApiCall.modifyMonitor d0.id (monitorParent d0.parent) (monitorFromData d0) ::
         (resourceBigipLtmMonitorRead (allOkClient none) d0).2.2) :=
  ⟨(update_transcribes_and_chains_read (allOkClient none) d0).1,
   (update_transcribes_and_chains_read (allOkClient none) d0).2 rfl⟩

/-- C6: across the five lifecycle operations, the traces consist solely of
the four monitor API calls — `Read` and `Exists` issue exactly one listing
call, `Delete` exactly one deletion, `Update` a modification possibly
followed by a listing, and `Create` a creation possibly followed by a
modification and a listing.  No other remote call occurs. -/
theorem only_four_monitor_api_calls (client : Client) (d : ResourceData) :
    (resourceBigipLtmMonitorRead client d).2.2 = [ApiCall.monitors] ∧
    (resourceBigipLtmMonitorExists client d).2.2 = [ApiCall.monitors] ∧
    (resourceBigipLtmMonitorDelete client d).2.2 = [deleteCallOf d] ∧
    ((resourceBigipLtmMonitorUpdate client d).2.2 = [modifyCallOf d] ∨
     (resourceBigipLtmMonitorUpdate client d).2.2 = [modifyCallOf d, ApiCall.monitors]) ∧
    ((resourceBigipLtmMonitorCreate client d).2.2 = [createCallOf d] ∨
     (resourceBigipLtmMonitorCreate client d).2.2 =
       [createCallOf d, modifyCallOf { d with id := d.name }] ∨
     (resourceBigipLtmMonitorCreate client d).2.2 =
       [createCallOf d, modifyCallOf { d with id := d.name }, ApiCall.monitors]) :=
  ⟨read_trace_eq client d, exists_trace_eq client d, delete_trace_eq client d,
   update_trace_cases client d, create_trace_cases client d⟩

/-- C8: when the listing is nil, or no listed monitor's `FullPath` equals
the resource Id, `Read` clears the Id and returns nil without touching any
configuration field; configuration fields are only ever populated from a
monitor whose `FullPath` equals the Id. -/
theorem read_clears_or_copies_matching (client : Client) (d : ResourceData)
    (ms : List Monitor) :
    (client.monitors = .ok none →
      resourceBigipLtmMonitorRead client d =
        (none, { d with id := [] }, [ApiCall.monitors])) ∧
    (client.monitors = .ok (some ms) → (∀ m ∈ ms, m.fullPath ≠ d.id) →
      resourceBigipLtmMonitorRead client d =
        (none, { d with id := [] }, [ApiCall.monitors])) ∧
    (client.monitors = .ok (some ms) →
      (resourceBigipLtmMonitorRead client d).2.1 = { d with id := [] } ∨
      ∃ m ∈ ms, m.fullPath = d.id ∧
        (resourceBigipLtmMonitorRead client d).2.1 = setFromMonitor d m) := by
  refine ⟨fun h => ?_, fun h hn => ?_, fun h => ?_⟩
  · simp [resourceBigipLtmMonitorRead, h]
  · simp [resourceBigipLtmMonitorRead, h, readLoop_eq_of_no_match d.id d ms hn]
  · rcases readLoop_cases d.id d ms with hl | ⟨m, hm, hp, hl⟩
    · exact Or.inl (by simp [resourceBigipLtmMonitorRead, h, hl])
    · exact Or.inr ⟨m, hm, hp, by simp [resourceBigipLtmMonitorRead, h, hl]⟩

/-- Witness for C8: a nil listing, and a listing containing only a
non-matching monitor, at concrete inputs. -/
theorem read_clears_or_copies_matching_witness :
    (resourceBigipLtmMonitorRead (allOkClient none) d0 =
      (none, { d0 with id := [] }, [ApiCall.monitors])) ∧
    (resourceBigipLtmMonitorRead (allOkClient (some [otherMonitor])) d0 =
      (none, { d0 with id := [] }, [ApiCall.monitors])) ∧
    ((resourceBigipLtmMonitorRead (allOkClient (some [otherMonitor])) d0).2.1 =
        { d0 with id := [] } ∨
      ∃ m ∈ [otherMonitor], m.fullPath = d0.id ∧
        (resourceBigipLtmMonitorRead (allOkClient (some [otherMonitor])) d0).2.1 =
          setFromMonitor d0 m) :=
  ⟨(read_clears_or_copies_matching (allOkClient none) d0 []).1 rfl,
   (read_clears_or_copies_matching (allOkClient (some [otherMonitor])) d0
      [otherMonitor]).2.1 rfl (by decide),
   (read_clears_or_copies_matching (allOkClient (some [otherMonitor])) d0
      [otherMonitor]).2.2 rfl⟩

/-- C9: `Delete` clears the resource Id exactly when `DeleteMonitor`
succeeds; on a client error it returns a non-nil error and leaves the
resource data (Id and all configuration fields) unchanged. -/
theorem delete_clears_id_only_on_success (client : Client) (d : ResourceData) (e : Str) :
    (client.deleteMonitor d.id (monitorParent d.parent) = some e →
      resourceBigipLtmMonitorDelete client d =
        (some (errDeleting d.id (monitorParent d.parent) e), d, [deleteCallOf d])) ∧
    (client.deleteMonitor d.id (monitorParent d.parent) = none →
      resourceBigipLtmMonitorDelete client d =
        (none, { d with id := [] }, [deleteCallOf d])) := by
  refine ⟨fun h => ?_, fun h => ?_⟩ <;>
    simp [resourceBigipLtmMonitorDelete, deleteCallOf, h]

/-- Witness for C9: a failing and a succeeding deletion at concrete
clients. -/
theorem delete_clears_id_only_on_success_witness :
    (resourceBigipLtmMonitorDelete allFailClient d0 =
      (some (errDeleting d0.id (monitorParent d0.parent) boom), d0, [deleteCallOf d0])) ∧
    (resourceBigipLtmMonitorDelete (allOkClient none) d0 =
      (none, { d0 with id := [] }, [deleteCallOf d0])) :=
  ⟨(delete_clears_id_only_on_success allFailClient d0 boom).1 rfl,
   (delete_clears_id_only_on_success (allOkClient none) d0 boom).2 rfl⟩

end BigipMonitor
